import Mathlib

/-!
Verification development for the WAV-file volume analyzer (`script.py`).

The analyzer classifies audio recordings by a filename convention, measures
their RMS loudness in decibels, checks the value against a fixed per-category
decibel band, and aggregates the per-file outcomes into a summary table and a
detail table.

The embedding below mirrors `script.py` function by function.  Python strings
are modelled as Lean `String`s (with the parsing primitives implemented over
`String.data : List Char` so that they compute by structural recursion),
real-valued decibel measurements as rationals `ℚ`, and the I/O boundary of
`librosa.load`+`rms` as an `Option ℚ` input (`some d` = extraction succeeded
with mean-RMS decibel value `d`, `none` = the file could not be decoded and
the `except` branch runs).
-/

/-- The character sequence of the pattern `".wav"` used by
`filename.replace('.wav', '')` in `extract_info_from_filename`. -/
def wavChars : List Char := ['.', 'w', 'a', 'v']

/-- Python `filename.replace('.wav', '')` specialised to the constant pattern:
removes every (case-sensitive, left-to-right, non-overlapping) occurrence of
`".wav"` from the character list.  Mirrors `script.py` line 31. -/
def removeWavAll : List Char → List Char
  | '.' :: 'w' :: 'a' :: 'v' :: rest => removeWavAll rest
  | c :: rest => c :: removeWavAll rest
  | [] => []

/-- Whether `".wav"` occurs (case-sensitively) somewhere in the character
list; used to reason about `removeWavAll`. -/
def hasWav : List Char → Bool
  | [] => false
  | c :: t => wavChars.isPrefixOf (c :: t) || hasWav t

/-- Python `s.split('_')`: splits on every underscore, keeping empty pieces;
the empty string yields `[[]]`, exactly as `''.split('_') == ['']`. -/
def splitOnUnderscore : List Char → List (List Char)
  | [] => [[]]
  | c :: rest =>
    match splitOnUnderscore rest with
    | [] => [[]]
    | t :: ts => if c = '_' then [] :: t :: ts else (c :: t) :: ts

/-- Python `s.lower()` (ASCII case folding, which is all the analyzer's token
comparisons need). -/
def lowerStr (s : String) : String := String.mk (s.data.map Char.toLower)

/-- The token list the classifier works on: `filename.replace('.wav', '')`
followed by `.split('_')` (`script.py` line 31). -/
def tokensOf (filename : String) : List String :=
  (splitOnUnderscore (removeWavAll filename.data)).map String.mk

/-- Modelled from the spec: token list obtained by stripping one `".wav"`
suffix (case-sensitive exact suffix match) and then splitting on `'_'`.  This
is the behaviour §4.1 of the spec ascribes to the classifier; it is compared
against `tokensOf`, the behaviour of the code. -/
def tokensBySuffixStrip (filename : String) : List String :=
  let cs := filename.data
  let stripped := if wavChars.isSuffixOf cs then cs.take (cs.length - 4) else cs
  (splitOnUnderscore stripped).map String.mk

/-- The membership test `part.lower() in ['soft', 'comfortable']`
(`script.py` line 38). -/
def isVolToken (p : String) : Bool :=
  lowerStr p == "soft" || lowerStr p == "comfortable"

/-- The `for part in parts: ... break` loop of `extract_info_from_filename`
(lines 37-40): the lowercasing of the first token that names a known volume
category, or `"unknown"` when no token matches. -/
def findCategory : List String → String
  | [] => "unknown"
  | p :: rest => if isVolToken p then lowerStr p else findCategory rest

/-- `extract_info_from_filename` (`script.py` lines 29-41): speaker id and
category from a filename.  Defaults are `("Unknown", "unknown")`; with at
least 3 tokens the speaker id is the first token and the category comes from
the scanning loop. -/
def extract_info_from_filename (filename : String) : String × String :=
  let parts := tokensOf filename
  if 3 ≤ parts.length then (parts.headD "Unknown", findCategory parts)
  else ("Unknown", "unknown")

/-- Round `n / d` (with `d > 0`) to the nearest integer, ties to even: the
rounding mode of Python's built-in `round` and of `format(x, '.1f')`. -/
def roundPair (n d : ℤ) : ℤ :=
  let f := n.fdiv d
  let r := n - f * d
  if 2 * r < d then f
  else if d < 2 * r then f + 1
  else if f % 2 = 0 then f else f + 1

/-- The number of tenths in `q` rounded half-to-even. -/
def roundTenths (q : ℚ) : ℤ := roundPair (10 * q.num) (q.den : ℤ)

/-- Python `round(q, 1)`: round to one decimal place, ties to even
(`script.py` line 65). -/
def pyRound1 (q : ℚ) : ℚ := mkRat (roundTenths q) 10

/-- A named volume band from the `VOLUME_CATEGORIES` table
(`script.py` lines 18-21). -/
structure VolumeCategory where
  rms_range : String
  min_db : ℚ
  max_db : ℚ
  deriving DecidableEq

/-- The `VOLUME_CATEGORIES` global table (`script.py` lines 18-21). -/
def VOLUME_CATEGORIES : List (String × VolumeCategory) :=
  [("soft", ⟨"-35dB to -25dB", -35, -25⟩),
   ("comfortable", ⟨"-25dB to -15dB", -25, -15⟩)]

/-- The test `expected_category in VOLUME_CATEGORIES` together with the
lookup `VOLUME_CATEGORIES[expected_category]` (`script.py` lines 55-56). -/
def lookupCategory (name : String) : Option VolumeCategory :=
  VOLUME_CATEGORIES.lookup name

/-- Value of the `Current_File_Db` cell: a number, or the string sentinel
`"Error"` written on the exception path. -/
inductive DbCell where
  | val (q : ℚ)
  | error
  deriving DecidableEq

/-- The per-file result dictionary built by `analyze_wav_file`.  The
`folder` field models the presence of the `'Folder'` key, which is absent
(`none`) until `create_excel_report` mutates the record (line 151). -/
structure FileRecord where
  speaker_id : String
  filename : String
  category : String
  current_file_db : DbCell
  db_range : String
  status : String
  folder : Option String := none
  deriving DecidableEq

/-- `analyze_wav_file` (`script.py` lines 43-80).  The audio I/O and RMS
computation are replaced by their outcome `loudness`: `some db_value` when
`librosa.load`/`rms`/`rms_to_db` succeed with mean decibel value `db_value`,
`none` when any of them raises and the `except` branch runs.  On success the
status starts `"Bad"` and the range `"N/A"`, and both are overwritten only
when the category is a key of `VOLUME_CATEGORIES`; the band check uses the
unrounded `db_value` (line 58) while the reported value is rounded (line 65). -/
def analyze_wav_file (loudness : Option ℚ) (filename : String) : FileRecord :=
  let sc := extract_info_from_filename filename
  match loudness with
  | some db_value =>
    match lookupCategory sc.2 with
    | some category_info =>
      { speaker_id := sc.1, filename := filename, category := sc.2,
        current_file_db := DbCell.val (pyRound1 db_value),
        db_range := category_info.rms_range,
        status :=
          if category_info.min_db ≤ db_value ∧ db_value ≤ category_info.max_db
          then "Good" else "Bad" }
    | none =>
      { speaker_id := sc.1, filename := filename, category := sc.2,
        current_file_db := DbCell.val (pyRound1 db_value),
        db_range := "N/A", status := "Bad" }
  | none =>
      { speaker_id := sc.1, filename := filename, category := sc.2,
        current_file_db := DbCell.error, db_range := "Error",
        status := "Error" }

/-- One file found by the recursive walk below a folder: its base name and
the outcome the loudness extraction would have on it. -/
structure DiskFile where
  name : String
  loudness : Option ℚ
  deriving DecidableEq

/-- One immediate subdirectory of the root, with the files its recursive
walk discovers, in discovery order. -/
structure Folder where
  name : String
  files : List DiskFile
  deriving DecidableEq

/-- The root path handed to `scan_folders_from_path`: whether
`os.path.exists` holds, and its immediate subdirectories in `os.listdir`
order. -/
structure FileSystem where
  rootExists : Bool
  subdirs : List Folder
  deriving DecidableEq

/-- The filter `file.lower().endswith('.wav')` (`script.py` line 103). -/
def isWavName (s : String) : Bool :=
  wavChars.isSuffixOf (s.data.map Char.toLower)

/-- The `wav_files` comprehension for one folder (`script.py` line 103). -/
def wavFilesIn (f : Folder) : List DiskFile :=
  f.files.filter (fun df => isWavName df.name)

/-- The inner loop of `scan_folders_from_path` (lines 109-113): every
matching file is analyzed and appended, in order. -/
def analyzeFolder (f : Folder) : List FileRecord :=
  (wavFilesIn f).map (fun df => analyze_wav_file df.loudness df.name)

/-- The two terminal failure messages of `scan_folders_from_path`
(`st.error` at lines 87 and 93). -/
inductive ScanError where
  | pathNotFound
  | noFoldersFound
  deriving DecidableEq

/-- The `all_results` dictionary: folder name to its record list, in
insertion order. -/
abbrev CorpusResults := List (String × List FileRecord)

/-- `scan_folders_from_path` (`script.py` lines 82-120).  Returns the error
surfaced via `st.error` (if any) together with `all_results`, which is empty
on both terminal failures.  A truthy (non-empty) `selected_folders`
restricts the scan to matching subdirectory names; folders with no matching
wav files are skipped (the `else` warning at line 118). -/
def scan_folders_from_path (fs : FileSystem)
    (selected_folders : Option (List String)) :
    Option ScanError × CorpusResults :=
  if fs.rootExists = false then (some .pathNotFound, [])
  else if fs.subdirs.isEmpty then (some .noFoldersFound, [])
  else
    let subdirs_to_scan :=
      match selected_folders with
      | some sel =>
          if sel.isEmpty then fs.subdirs
          else fs.subdirs.filter (fun d => decide (d.name ∈ sel))
      | none => fs.subdirs
    (none, subdirs_to_scan.filterMap (fun f =>
        if (wavFilesIn f).isEmpty then none
        else some (f.name, analyzeFolder f)))

/-- Render a number of tenths the way Python's `f"{x:.1f}"` renders the
value `x = tenths / 10` (for nonnegative `tenths`). -/
def formatTenths (tenths : ℤ) : String :=
  toString (tenths / 10) ++ "." ++ toString (tenths % 10)

/-- The `Success Rate` cell (`script.py` line 139):
`f"{(good/total)*100:.1f}%"` when `total > 0`, else `"0%"`. -/
def successRate (good total : ℕ) : String :=
  if 0 < total then formatTenths (roundPair ((good : ℤ) * 1000) (total : ℤ)) ++ "%"
  else "0%"

/-- One row of the `Summary` sheet (`script.py` lines 134-140). -/
structure SummaryRow where
  folder : String
  total_files : ℕ
  good_files : ℕ
  bad_files : ℕ
  success_rate : String
  deriving DecidableEq

/-- The per-folder summary computation (`script.py` lines 129-140). -/
def summaryRowFor (folder_name : String) (results : List FileRecord) : SummaryRow :=
  let total_files := results.length
  let good_files := (results.filter (fun r => r.status == "Good")).length
  { folder := folder_name, total_files := total_files, good_files := good_files,
    bad_files := total_files - good_files,
    success_rate := successRate good_files total_files }

/-- One row of the `Detailed_Results` sheet (`script.py` lines 158-167). -/
structure DetailRow where
  sl_no : ℕ
  folder : String
  speaker_id : String
  filename : String
  category : String
  current_file_db : DbCell
  db_range : String
  status : String
  deriving DecidableEq

/-- The in-place mutation `result['Folder'] = folder_name`
(`script.py` line 151). -/
def setFolder (folder_name : String) (r : FileRecord) : FileRecord :=
  { r with folder := some folder_name }

/-- The state of `results_data` after the flattening loop of
`create_excel_report` has run (lines 147-152): every record now carries its
folder name. -/
def mutateResults (rd : CorpusResults) : CorpusResults :=
  rd.map (fun p => (p.1, p.2.map (setFolder p.1)))

/-- Build one detail row (`script.py` lines 158-167); `result.get('Folder',
'N/A')` is `Option.getD`. -/
def mkDetailRow (i : ℕ) (r : FileRecord) : DetailRow :=
  { sl_no := i, folder := r.folder.getD "N/A", speaker_id := r.speaker_id,
    filename := r.filename, category := r.category,
    current_file_db := r.current_file_db, db_range := r.db_range,
    status := r.status }

/-- The two tables serialized into the workbook. -/
structure ExcelReport where
  summary : List SummaryRow
  details : List DetailRow
  deriving DecidableEq

/-- `create_excel_report` (`script.py` lines 122-173).  Returns the report
(the two tables) together with the state of `results_data` after the call,
because the function mutates its argument's records at line 151. -/
def create_excel_report (results_data : CorpusResults) :
    ExcelReport × CorpusResults :=
  let summary := results_data.map (fun p => summaryRowFor p.1 p.2)
  let mutated := mutateResults results_data
  let all_details := (mutated.map Prod.snd).flatten
  let details := (all_details.enumFrom 1).map (fun p => mkDetailRow p.1 p.2)
  (⟨summary, details⟩, mutated)

/-! ## Helper lemmas about `removeWavAll` and `findCategory` -/

/-- When `".wav"` does not begin at the head, `removeWavAll` keeps the head
character and continues on the tail. -/
lemma removeWavAll_cons_ne (c : Char) (t : List Char)
    (h : wavChars.isPrefixOf (c :: t) = false) :
    removeWavAll (c :: t) = c :: removeWavAll t := by
  conv_lhs => rw [removeWavAll.eq_def]
  split
  · rename_i rest heq
    exfalso
    rw [heq] at h
    simp [wavChars, List.isPrefixOf] at h
  · rename_i hne heq
    injection heq with hc ht
    subst hc; subst ht; rfl
  · rename_i heq
    exact absurd heq (by simp)

/-- A character list without any occurrence of `".wav"` is unchanged by
`removeWavAll`. -/
lemma removeWavAll_of_not_hasWav (s : List Char) (h : hasWav s = false) :
    removeWavAll s = s := by
  induction s with
  | nil => rfl
  | cons c t ih =>
    simp only [hasWav, Bool.or_eq_false_iff] at h
    rw [removeWavAll_cons_ne c t h.1, ih h.2]

/-- `removeWavAll` deletes a leftmost occurrence of `".wav"` and resumes
scanning after it, matching Python's left-to-right non-overlapping
`str.replace`. -/
lemma removeWavAll_first_occurrence (a b : List Char) (h : hasWav a = false) :
    removeWavAll (a ++ wavChars ++ b) = a ++ removeWavAll b := by
  induction a with
  | nil => rfl
  | cons c a' ih =>
    simp only [hasWav, Bool.or_eq_false_iff] at h
    have step : wavChars.isPrefixOf (c :: (a' ++ wavChars ++ b)) = false := by
      rcases a' with _ | ⟨d, _ | ⟨e, _ | ⟨f, r⟩⟩⟩
      · simp [wavChars, List.isPrefixOf]
      · simp [wavChars, List.isPrefixOf]
      · simp [wavChars, List.isPrefixOf]
      · have h1 := h.1
        simp only [wavChars, List.isPrefixOf] at h1 ⊢
        simpa using h1
    calc removeWavAll (c :: a' ++ wavChars ++ b)
        = removeWavAll (c :: (a' ++ wavChars ++ b)) := by simp
      _ = c :: removeWavAll (a' ++ wavChars ++ b) := removeWavAll_cons_ne _ _ step
      _ = c :: (a' ++ removeWavAll b) := by rw [ih h.2]

/-- The category-scanning loop returns the lowercasing of the first token
satisfying the membership test, and `"unknown"` when none does. -/
lemma findCategory_eq_find (l : List String) :
    findCategory l =
      (match l.find? (fun p => isVolToken p) with
       | some p => lowerStr p
       | none => "unknown") := by
  induction l with
  | nil => rfl
  | cons p rest ih =>
    by_cases hp : isVolToken p
    · simp [findCategory, hp, List.find?_cons]
    · simp [findCategory, hp, List.find?_cons, ih]

/-! ## Claims -/

/-- C1, as stated, is false on the code: a `soft` file measured at
`-24.96` dB rounds to `-25.0`, which lies inside the inclusive band
`[-35, -25]`, yet `analyze_wav_file` reports `status = "Bad"`, because
line 58 compares the unrounded value against the band. -/
theorem C1_counterexample :
    (extract_info_from_filename "spk_soft_x.wav").2 = "soft" ∧
    lookupCategory "soft" = some ⟨"-35dB to -25dB", -35, -25⟩ ∧
    (-35 : ℚ) ≤ pyRound1 (mkRat (-2496) 100) ∧
    pyRound1 (mkRat (-2496) 100) ≤ -25 ∧
    (analyze_wav_file (some (mkRat (-2496) 100)) "spk_soft_x.wav").status = "Bad" := by
  decide

/-- C1 (amended): for every file whose filename classifies to a known
category and whose loudness extraction succeeds with value `d`, the
evaluator sets `status = "Good"` if and only if the *unrounded* value
satisfies `min_db ≤ d ≤ max_db`, both boundaries inclusive; the rounding
`round(d, 1)` affects only the reported `Current_File_Db` cell. -/
theorem C1_good_iff_unrounded_in_band (filename : String) (d : ℚ)
    (ci : VolumeCategory)
    (h : lookupCategory (extract_info_from_filename filename).2 = some ci) :
    ((analyze_wav_file (some d) filename).status = "Good" ↔
      ci.min_db ≤ d ∧ d ≤ ci.max_db) ∧
    (analyze_wav_file (some d) filename).current_file_db =
      DbCell.val (pyRound1 d) := by
  have hmain :
      analyze_wav_file (some d) filename =
        { speaker_id := (extract_info_from_filename filename).1,
          filename := filename,
          category := (extract_info_from_filename filename).2,
          current_file_db := DbCell.val (pyRound1 d),
          db_range := ci.rms_range,
          status := if ci.min_db ≤ d ∧ d ≤ ci.max_db then "Good" else "Bad" } := by
    simp only [analyze_wav_file]
    rw [h]
  rw [hmain]
  refine ⟨?_, rfl⟩
  by_cases hc : ci.min_db ≤ d ∧ d ≤ ci.max_db
  · simp [hc]
  · simp [hc]

/-- Instance of `C1_good_iff_unrounded_in_band` at a concrete input:
`-30` dB on a `soft` file is `Good`. -/
theorem C1_witness :
    (analyze_wav_file (some (-30)) "spk_soft_x.wav").status = "Good" :=
  (C1_good_iff_unrounded_in_band "spk_soft_x.wav" (-30)
      ⟨"-35dB to -25dB", -35, -25⟩ (by decide)).1.mpr (by decide)

/-- C2, as stated, is false on the code: the classifier uses
`filename.replace('.wav', '')`, which removes every occurrence, so in
`"a.wav_b_c.wav"` the non-suffix occurrence of `".wav"` does not survive
into the tokens, while the suffix-strip reading of the spec would keep it. -/
theorem C2_counterexample :
    tokensOf "a.wav_b_c.wav" = ["a", "b", "c"] ∧
    tokensBySuffixStrip "a.wav_b_c.wav" = ["a.wav", "b", "c"] ∧
    tokensOf "a.wav_b_c.wav" ≠ tokensBySuffixStrip "a.wav_b_c.wav" := by
  decide

/-- C2 (amended): the classifier removes every case-sensitive occurrence of
`".wav"` (left to right, non-overlapping) before splitting on `'_'`:
segments without an occurrence are copied unchanged, a leftmost occurrence
is deleted with scanning resuming after it, a non-suffix occurrence
therefore also disappears from the tokens, and a differently-cased `.WAV`
is left intact. -/
theorem C2_replace_all_occurrences (s a b : List Char) :
    (hasWav s = false → removeWavAll s = s) ∧
    (hasWav a = false →
      removeWavAll (a ++ wavChars ++ b) = a ++ removeWavAll b) ∧
    tokensOf "a.wav_b_c.wav" = ["a", "b", "c"] ∧
    tokensOf "A.WAV_b_c.WAV" = ["A.WAV", "b", "c.WAV"] :=
  ⟨removeWavAll_of_not_hasWav s,
   removeWavAll_first_occurrence a b,
   by decide, by decide⟩

/-- Instance of `C2_replace_all_occurrences` at concrete inputs. -/
theorem C2_witness :
    removeWavAll "xy".data = "xy".data ∧
    removeWavAll ("q".data ++ wavChars ++ "_r".data) =
      "q".data ++ removeWavAll "_r".data :=
  ⟨(C2_replace_all_occurrences "xy".data [] []).1 (by decide),
   (C2_replace_all_occurrences [] "q".data "_r".data).2.1 (by decide)⟩

/-- C4: the classifier returns `("Unknown", "unknown")` on fewer than 3
tokens; with 3 or more tokens the speaker id is the first token verbatim
and the category is the lowercased first token (scanning in order,
case-insensitively) equal to `"soft"` or `"comfortable"`, or `"unknown"`
when no token matches; including the three concrete examples of the spec. -/
theorem C4_classifier_contract (filename : String) :
    ((tokensOf filename).length < 3 →
      extract_info_from_filename filename = ("Unknown", "unknown")) ∧
    (3 ≤ (tokensOf filename).length →
      (extract_info_from_filename filename).1 =
        (tokensOf filename).headD "Unknown" ∧
      (extract_info_from_filename filename).2 =
        (match (tokensOf filename).find? (fun p => isVolToken p) with
         | some p => lowerStr p
         | none => "unknown")) ∧
    extract_info_from_filename "spk1_soft_take2.wav" = ("spk1", "soft") ∧
    extract_info_from_filename "a_b.wav" = ("Unknown", "unknown") ∧
    extract_info_from_filename "x_y_loud_z.wav" = ("x", "unknown") := by
  refine ⟨?_, ?_, by decide, by decide, by decide⟩
  · intro h
    simp only [extract_info_from_filename]
    rw [if_neg (by omega)]
  · intro h
    simp only [extract_info_from_filename]
    rw [if_pos h]
    exact ⟨rfl, findCategory_eq_find _⟩

/-- Instance of `C4_classifier_contract` at concrete inputs. -/
theorem C4_witness :
    extract_info_from_filename "a_b.wav" = ("Unknown", "unknown") ∧
    (extract_info_from_filename "spk1_soft_take2.wav").1 =
      (tokensOf "spk1_soft_take2.wav").headD "Unknown" :=
  ⟨(C4_classifier_contract "a_b.wav").1 (by decide),
   ((C4_classifier_contract "spk1_soft_take2.wav").2.1 (by decide)).1⟩

/-- C7: a file whose filename classifies to category `"unknown"` and whose
extraction succeeds is `Bad` unconditionally, with `Db_range = "N/A"`,
regardless of the measured decibel value. -/
theorem C7_unknown_category_always_bad (filename : String) (d : ℚ)
    (h : (extract_info_from_filename filename).2 = "unknown") :
    (analyze_wav_file (some d) filename).status = "Bad" ∧
    (analyze_wav_file (some d) filename).db_range = "N/A" := by
  have hl : lookupCategory "unknown" = none := by decide
  simp only [analyze_wav_file]
  rw [h, hl]
  exact ⟨rfl, rfl⟩

/-- Instance of `C7_unknown_category_always_bad` at a concrete input:
`-20.0` dB with category `unknown` is `Bad` with range `"N/A"`. -/
theorem C7_witness :
    (analyze_wav_file (some (-20)) "x_y_loud_z.wav").status = "Bad" ∧
    (analyze_wav_file (some (-20)) "x_y_loud_z.wav").db_range = "N/A" :=
  C7_unknown_category_always_bad "x_y_loud_z.wav" (-20) (by decide)

/-! ## Helper lemmas for the report aggregator -/

/-- Writing the `'Folder'` key twice with the same name is the same as
writing it once. -/
lemma setFolder_setFolder (n : String) (r : FileRecord) :
    setFolder n (setFolder n r) = setFolder n r := rfl

/-- The flattening loop's mutation is idempotent on `results_data`. -/
lemma mutateResults_idem (rd : CorpusResults) :
    mutateResults (mutateResults rd) = mutateResults rd := by
  simp only [mutateResults, List.map_map]
  refine List.map_congr_left fun p _ => ?_
  simp only [Function.comp_apply, List.map_map]
  exact congrArg (fun l => (p.1, l)) (List.map_congr_left fun r _ => rfl)

/-- Writing the `'Folder'` key does not change a record's status, so the
summary computation ignores it. -/
lemma summaryRowFor_map_setFolder (n m : String) (rs : List FileRecord) :
    summaryRowFor n (rs.map (setFolder m)) = summaryRowFor n rs := by
  have hp : (fun r : FileRecord => r.status == "Good") ∘ setFolder m
      = fun r : FileRecord => r.status == "Good" := rfl
  simp [summaryRowFor, List.filter_map, hp]

/-- The summary table of the mutated state equals that of the original. -/
lemma summary_mutateResults (rd : CorpusResults) :
    (mutateResults rd).map (fun p => summaryRowFor p.1 p.2)
      = rd.map (fun p => summaryRowFor p.1 p.2) := by
  simp only [mutateResults, List.map_map]
  refine List.map_congr_left fun p _ => ?_
  exact summaryRowFor_map_setFolder p.1 p.1 p.2

/-- No record is both a `"Good"` row and an `"Error"` row, so the two filter
counts together never exceed the total. -/
lemma count_err_good_le (recs : List FileRecord) :
    (recs.filter (fun r => r.status == "Error")).length
      + (recs.filter (fun r => r.status == "Good")).length ≤ recs.length := by
  induction recs with
  | nil => simp
  | cons r t ih =>
    simp only [List.filter_cons]
    by_cases he : (r.status == "Error") = true
    · have hg : (r.status == "Good") = false := by
        rw [beq_iff_eq] at he
        rw [he]
        decide
      rw [if_pos he, if_neg (by simp [hg])]
      simp only [List.length_cons]
      omega
    · rw [if_neg he]
      by_cases hg : (r.status == "Good") = true
      · rw [if_pos hg]
        simp only [List.length_cons]
        omega
      · rw [if_neg hg]
        simp only [List.length_cons]
        omega

/-! ## Claims C3, C5, C6, C8, C9, C10 -/

/-- C3, as stated, is false on the code: `create_excel_report` mutates its
input, adding the `'Folder'` key to every record (line 151), so the input
`CorpusResults` does not come out unchanged. -/
theorem C3_counterexample :
    (create_excel_report [("f", [analyze_wav_file (some (-30)) "a_soft_1.wav"])]).2
      ≠ [("f", [analyze_wav_file (some (-30)) "a_soft_1.wav"])] := by
  decide

/-- C3 (amended): `create_excel_report` mutates each record by writing its
folder name into the `'Folder'` key, but that is the only effect on the
input and the tables do not depend on it: re-running the aggregator on the
mutated `results_data` reproduces the identical summary table, detail table
and state. -/
theorem C3_aggregate_idempotent (rd : CorpusResults) :
    create_excel_report ((create_excel_report rd).2) = create_excel_report rd := by
  simp only [create_excel_report]
  rw [mutateResults_idem, summary_mutateResults]

/-- C5: a failed extraction yields a `FileRecord` with status `"Error"`,
the `"Error"` sentinel in the measured-dB and expected-range fields, and
the classifier's speaker id and category; and the per-folder loop is total,
producing exactly one record per wav file in order, so a failed file still
appears as a row. -/
theorem C5_error_record_contract (filename : String) (f : Folder) :
    analyze_wav_file none filename =
      { speaker_id := (extract_info_from_filename filename).1,
        filename := filename,
        category := (extract_info_from_filename filename).2,
        current_file_db := DbCell.error, db_range := "Error",
        status := "Error", folder := none } ∧
    (analyzeFolder f).length = (wavFilesIn f).length ∧
    ∀ i (h : i < (wavFilesIn f).length),
      (analyzeFolder f)[i]? =
        some (analyze_wav_file ((wavFilesIn f).get ⟨i, h⟩).loudness
          ((wavFilesIn f).get ⟨i, h⟩).name) := by
  refine ⟨rfl, by simp [analyzeFolder], ?_⟩
  intro i h
  simp [analyzeFolder, List.getElem?_eq_getElem, h]

/-- Instance of `C5_error_record_contract` at a concrete input: the folder
scan of a single undecodable file still yields its `Error` row. -/
theorem C5_witness :
    (analyzeFolder ⟨"f", [⟨"bad_soft_1.wav", none⟩]⟩)[0]? =
      some (analyze_wav_file none "bad_soft_1.wav") := by
  have h := (C5_error_record_contract "bad_soft_1.wav"
      ⟨"f", [⟨"bad_soft_1.wav", none⟩]⟩).2.2 0 (by decide)
  simpa using h

/-- C6: every summary row has `bad_files = total_files - good_files` with
`good_files` counting exactly the `"Good"` records (so `"Error"` records
are counted into `bad_files`), and the success rate is
`good/total * 100` formatted to one decimal with a percent sign, `"0%"`
when the folder has no files. -/
theorem C6_summary_row_contract (rd : CorpusResults) (name : String)
    (recs : List FileRecord) (hmem : (name, recs) ∈ rd) :
    summaryRowFor name recs ∈ (create_excel_report rd).1.summary ∧
    (summaryRowFor name recs).good_files =
      (recs.filter (fun r => r.status == "Good")).length ∧
    (summaryRowFor name recs).bad_files =
      (summaryRowFor name recs).total_files - (summaryRowFor name recs).good_files ∧
    (summaryRowFor name recs).good_files + (summaryRowFor name recs).bad_files =
      (summaryRowFor name recs).total_files ∧
    (recs.filter (fun r => r.status == "Error")).length ≤
      (summaryRowFor name recs).bad_files ∧
    (summaryRowFor name recs).success_rate =
      (if 0 < recs.length
       then formatTenths (roundPair
            (((recs.filter (fun r => r.status == "Good")).length : ℤ) * 1000)
            (recs.length : ℤ)) ++ "%"
       else "0%") := by
  have hgle : (recs.filter (fun r => r.status == "Good")).length ≤ recs.length :=
    List.length_filter_le _ _
  have herr := count_err_good_le recs
  refine ⟨?_, rfl, rfl, ?_, ?_, rfl⟩
  · have hmap : summaryRowFor (name, recs).1 (name, recs).2 ∈
        rd.map (fun p => summaryRowFor p.1 p.2) := List.mem_map_of_mem _ hmem
    simpa [create_excel_report] using hmap
  · show (recs.filter (fun r => r.status == "Good")).length
        + (recs.length - (recs.filter (fun r => r.status == "Good")).length)
        = recs.length
    omega
  · show (recs.filter (fun r => r.status == "Error")).length
        ≤ recs.length - (recs.filter (fun r => r.status == "Good")).length
    omega

/-- Instance of `C6_summary_row_contract` at a concrete input: one `Good`
and one `Error` record give `good + bad = total` with the `Error` record
landing in `bad_files`. -/
theorem C6_witness :
    (summaryRowFor "f" [analyze_wav_file (some (-30)) "a_soft_1.wav",
        analyze_wav_file none "b_soft_1.wav"]).good_files +
      (summaryRowFor "f" [analyze_wav_file (some (-30)) "a_soft_1.wav",
        analyze_wav_file none "b_soft_1.wav"]).bad_files =
      (summaryRowFor "f" [analyze_wav_file (some (-30)) "a_soft_1.wav",
        analyze_wav_file none "b_soft_1.wav"]).total_files :=
  (C6_summary_row_contract
      [("f", [analyze_wav_file (some (-30)) "a_soft_1.wav",
        analyze_wav_file none "b_soft_1.wav"])]
      "f"
      [analyze_wav_file (some (-30)) "a_soft_1.wav",
        analyze_wav_file none "b_soft_1.wav"]
      (List.mem_singleton.mpr rfl)).2.2.2.1

/-- C8: a missing root path fails with `PathNotFound`, a root without
subdirectories fails with `NoFoldersFound`, and in both cases the result
collection is empty — no partial `CorpusResults` entry is produced. -/
theorem C8_terminal_scan_failures (fs : FileSystem) (sel : Option (List String)) :
    (fs.rootExists = false →
      scan_folders_from_path fs sel = (some ScanError.pathNotFound, [])) ∧
    (fs.rootExists = true → fs.subdirs = [] →
      scan_folders_from_path fs sel = (some ScanError.noFoldersFound, [])) := by
  constructor
  · intro h
    simp [scan_folders_from_path, h]
  · intro h hsub
    simp [scan_folders_from_path, h, hsub]

/-- Instance of `C8_terminal_scan_failures` at concrete inputs. -/
theorem C8_witness :
    scan_folders_from_path ⟨false, [⟨"f", []⟩]⟩ none
      = (some ScanError.pathNotFound, []) ∧
    scan_folders_from_path ⟨true, []⟩ (some ["f"])
      = (some ScanError.noFoldersFound, []) :=
  ⟨(C8_terminal_scan_failures ⟨false, [⟨"f", []⟩]⟩ none).1 rfl,
   (C8_terminal_scan_failures ⟨true, []⟩ (some ["f"])).2 rfl rfl⟩

/-- C9: every folder entry of a scanner-produced `CorpusResults` holds at
least one record (folders with no matching wav files are omitted), so every
summary row the aggregator builds from a scan has `total_files > 0` and the
success-rate division never divides by zero. -/
theorem C9_no_empty_folder_entries (fs : FileSystem) (sel : Option (List String)) :
    (∀ name recs, (name, recs) ∈ (scan_folders_from_path fs sel).2 → recs ≠ []) ∧
    (∀ row ∈ (create_excel_report (scan_folders_from_path fs sel).2).1.summary,
      0 < row.total_files) := by
  have h1 : ∀ name recs,
      (name, recs) ∈ (scan_folders_from_path fs sel).2 → recs ≠ [] := by
    intro name recs hmem
    by_cases hr : fs.rootExists = false
    · simp [scan_folders_from_path, hr] at hmem
    · by_cases hs : fs.subdirs.isEmpty
      · simp [scan_folders_from_path, hr, hs] at hmem
      · simp only [scan_folders_from_path, hr, hs, if_false,
          Bool.true_eq_false, Bool.false_eq_true] at hmem
        rw [List.mem_filterMap] at hmem
        obtain ⟨f, hf, hgf⟩ := hmem
        by_cases hw : (wavFilesIn f).isEmpty
        · simp [hw] at hgf
        · simp only [hw, Bool.false_eq_true, if_false, Option.some.injEq,
            Prod.mk.injEq] at hgf
          intro hcon
          rw [hcon] at hgf
          have hnil : wavFilesIn f = [] := by
            have := hgf.2
            simpa [analyzeFolder] using this
          rw [hnil] at hw
          exact hw rfl
  refine ⟨h1, ?_⟩
  intro row hrow
  simp only [create_excel_report] at hrow
  rw [List.mem_map] at hrow
  obtain ⟨p, hp, hrow⟩ := hrow
  have hne := h1 p.1 p.2 hp
  rw [← hrow]
  show 0 < p.2.length
  exact List.length_pos.mpr hne

/-- Instance of `C9_no_empty_folder_entries` at a concrete input. -/
theorem C9_witness :
    0 < (summaryRowFor "f" [analyze_wav_file (some (-30)) "a_soft_1.wav"]).total_files :=
  (C9_no_empty_folder_entries
      ⟨true, [⟨"f", [⟨"a_soft_1.wav", some (-30)⟩]⟩]⟩ none).2
    (summaryRowFor "f" [analyze_wav_file (some (-30)) "a_soft_1.wav"])
    (by decide)

/-- C10: with a non-empty selection over an existing root with
subdirectories, the scan raises no error, processes only selected names
that match an actual subdirectory, and returns an empty `CorpusResults`
(still without error) when nothing matches. -/
theorem C10_selection_intersection (fs : FileSystem) (sel : List String)
    (hroot : fs.rootExists = true) (hsub : fs.subdirs ≠ []) (hsel : sel ≠ []) :
    (scan_folders_from_path fs (some sel)).1 = none ∧
    (∀ name recs, (name, recs) ∈ (scan_folders_from_path fs (some sel)).2 →
      name ∈ sel ∧ ∃ f ∈ fs.subdirs, f.name = name) ∧
    ((∀ f ∈ fs.subdirs, f.name ∉ sel) →
      scan_folders_from_path fs (some sel) = (none, [])) := by
  have hs : fs.subdirs.isEmpty = false := by
    cases hd : fs.subdirs with
    | nil => exact absurd hd hsub
    | cons a l => rfl
  have hselB : sel.isEmpty = false := by
    cases hd : sel with
    | nil => exact absurd hd hsel
    | cons a l => rfl
  refine ⟨?_, ?_, ?_⟩
  · simp [scan_folders_from_path, hroot, hs, hselB]
  · intro name recs hmem
    simp only [scan_folders_from_path, hroot, hs, hselB, Bool.true_eq_false,
      Bool.false_eq_true, if_false] at hmem
    rw [List.mem_filterMap] at hmem
    obtain ⟨f, hf, hgf⟩ := hmem
    rw [List.mem_filter] at hf
    by_cases hw : (wavFilesIn f).isEmpty
    · simp [hw] at hgf
    · simp only [hw, Bool.false_eq_true, if_false, Option.some.injEq,
        Prod.mk.injEq] at hgf
      have hname : f.name = name := hgf.1
      refine ⟨?_, f, hf.1, hname⟩
      rw [← hname]
      exact of_decide_eq_true hf.2
  · intro hnone
    have hfil : fs.subdirs.filter (fun d => decide (d.name ∈ sel)) = [] := by
      rw [List.filter_eq_nil_iff]
      intro f hf
      simpa using hnone f hf
    simp [scan_folders_from_path, hroot, hs, hselB, hfil]

/-- Instance of `C10_selection_intersection` at a concrete input: a
selection matching no subdirectory yields `(no error, empty results)`. -/
theorem C10_witness :
    scan_folders_from_path ⟨true, [⟨"a", [⟨"x_soft_1.wav", some (-30)⟩]⟩]⟩
        (some ["zzz"]) = (none, []) :=
  (C10_selection_intersection ⟨true, [⟨"a", [⟨"x_soft_1.wav", some (-30)⟩]⟩]⟩
      ["zzz"] rfl (by decide) (by decide)).2.2 (by decide)
